/-
Verification of `shelley/demo.py`: a shallow embedding in Lean 4 of the
script's functions, together with theorems settling the specification
claims.  Machine integers are modelled as `Nat` reduced modulo `2 ^ 32`
where the Python code relies on 32-bit arithmetic (inside SHA-256);
wall-clock time is modelled in integer milliseconds (the script's
`0.15 s` sleep is `150`, the `5.0 s` default health-check timeout is
`5000`); external processes (make, tmux, urlopen) are modelled by
environment oracles supplying their exit codes and outcomes, and the
script's observable behaviour is a trace of events plus an outcome.
-/
import Mathlib

set_option linter.unusedVariables false

/-! ## SHA-256, over `Nat` with explicit reduction modulo `2 ^ 32`

`port_for_dir` in `demo.py` computes
`3000 + (int(hashlib.sha256(str(SHELLEY_DIR).encode()).hexdigest()[:8], 16) % 1000)`.
We embed SHA-256 itself so the port resolver is the real function of the
directory path string. -/

/-- Reduce modulo `2 ^ 32` (32-bit word). -/
def w32 (n : Nat) : Nat := n % 4294967296

/-- Right rotation of a 32-bit word by `k` bits. -/
def rotr (k x : Nat) : Nat := w32 ((x >>> k) ||| (x <<< (32 - k)))

/-- The 64 SHA-256 round constants (decimal rendering of the FIPS 180-4
table). -/
def sha256K : List Nat :=
  [1116352408, 1899447441, 3049323471, 3921009573, 961987163, 1508970993,
   2453635748, 2870763221, 3624381080, 310598401, 607225278, 1426881987,
   1925078388, 2162078206, 2614888103, 3248222580, 3835390401, 4022224774,
   264347078, 604807628, 770255983, 1249150122, 1555081692, 1996064986,
   2554220882, 2821834349, 2952996808, 3210313671, 3336571891, 3584528711,
   113926993, 338241895, 666307205, 773529912, 1294757372, 1396182291,
   1695183700, 1986661051, 2177026350, 2456956037, 2730485921, 2820302411,
   3259730800, 3345764771, 3516065817, 3600352804, 4094571909, 275423344,
   430227734, 506948616, 659060556, 883997877, 958139571, 1322822218,
   1537002063, 1747873779, 1955562222, 2024104815, 2227730452, 2361852424,
   2428436474, 2756734187, 3204031479, 3329325298]

/-- The SHA-256 initial hash value (decimal rendering of the FIPS 180-4
table). -/
def sha256H0 : List Nat :=
  [1779033703, 3144134277, 1013904242, 2773480762, 1359893119, 2600822924,
   528734635, 1541459225]

/-- UTF-8 encoding of a single code point (what `str.encode()` does per char). -/
def utf8Bytes (c : Nat) : List Nat :=
  if c < 0x80 then [c]
  else if c < 0x800 then
    [0xc0 ||| (c >>> 6), 0x80 ||| (c &&& 0x3f)]
  else if c < 0x10000 then
    [0xe0 ||| (c >>> 12), 0x80 ||| ((c >>> 6) &&& 0x3f), 0x80 ||| (c &&& 0x3f)]
  else
    [0xf0 ||| (c >>> 18), 0x80 ||| ((c >>> 12) &&& 0x3f),
     0x80 ||| ((c >>> 6) &&& 0x3f), 0x80 ||| (c &&& 0x3f)]

/-- The UTF-8 byte sequence of a string, as Python's `s.encode()` produces. -/
def strBytes (s : String) : List Nat :=
  (s.data.map (fun c => utf8Bytes c.toNat)).flatten

/-- Big-endian 8-byte rendering of a `Nat` (the SHA-256 length field). -/
def be64 (n : Nat) : List Nat :=
  [w32 (n >>> 56) % 256, (n >>> 48) % 256, (n >>> 40) % 256, (n >>> 32) % 256,
   (n >>> 24) % 256, (n >>> 16) % 256, (n >>> 8) % 256, n % 256]

/-- SHA-256 padding: append `0x80`, zero bytes to 56 mod 64, then the
bit length as 8 big-endian bytes. -/
def sha256Pad (msg : List Nat) : List Nat :=
  let len := msg.length
  let zeros := (55 + 64 - len % 64) % 64
  msg ++ [0x80] ++ List.replicate zeros 0 ++ be64 (len * 8)

/-- Assemble a list of bytes into big-endian 32-bit words, 4 bytes each. -/
def bytesToWords : List Nat → List Nat
  | b0 :: b1 :: b2 :: b3 :: rest =>
      (b0 <<< 24 ||| b1 <<< 16 ||| b2 <<< 8 ||| b3) :: bytesToWords rest
  | _ => []

/-- Split a byte list into 64-byte blocks. -/
def chunks64 (l : List Nat) : List (List Nat) :=
  if h : l = [] then []
  else l.take 64 :: chunks64 (l.drop 64)
termination_by l.length
decreasing_by
  simp only [List.length_drop]
  have : 0 < l.length := List.length_pos.mpr h
  omega

/-- The small sigma-0 function of the SHA-256 message schedule. -/
def ssig0 (x : Nat) : Nat := (rotr 7 x) ^^^ (rotr 18 x) ^^^ (x >>> 3)

/-- The small sigma-1 function of the SHA-256 message schedule. -/
def ssig1 (x : Nat) : Nat := (rotr 17 x) ^^^ (rotr 19 x) ^^^ (x >>> 10)

/-- Extend the 16 block words to 64; `rev` holds the words produced so far
in reverse order, so `rev.getD k` is word `w (i - 1 - k)`. -/
def schedExtend (rev : List Nat) : Nat → List Nat
  | 0 => rev
  | steps + 1 =>
      let w := w32 (rev.getD 15 0 + ssig0 (rev.getD 14 0) +
                    rev.getD 6 0 + ssig1 (rev.getD 1 0))
      schedExtend (w :: rev) steps

/-- The 64-entry message schedule of one block (16 words in). -/
def sha256Schedule (block : List Nat) : List Nat :=
  (schedExtend block.reverse 48).reverse

/-- One SHA-256 compression round; the state is `[a,b,c,d,e,f,g,h]` and
`kw` is the round constant plus the schedule word. -/
def sha256Round (st : List Nat) (kw : Nat) : List Nat :=
  let a := st.getD 0 0
  let b := st.getD 1 0
  let c := st.getD 2 0
  let d := st.getD 3 0
  let e := st.getD 4 0
  let f := st.getD 5 0
  let g := st.getD 6 0
  let h := st.getD 7 0
  let s1 := (rotr 6 e) ^^^ (rotr 11 e) ^^^ (rotr 25 e)
  let ch := (e &&& f) ^^^ ((0xffffffff ^^^ e) &&& g)
  let t1 := h + s1 + ch + kw
  let s0 := (rotr 2 a) ^^^ (rotr 13 a) ^^^ (rotr 22 a)
  let mj := (a &&& b) ^^^ (a &&& c) ^^^ (b &&& c)
  let t2 := s0 + mj
  [w32 (t1 + t2), a, b, c, w32 (d + t1), e, f, g]

/-- Compress one 64-byte block into the running hash state. -/
def sha256Block (hs : List Nat) (block : List Nat) : List Nat :=
  let ws := sha256Schedule (bytesToWords block)
  let kw := List.zipWith (fun k w => w32 (k + w)) sha256K ws
  let st := kw.foldl sha256Round hs
  List.zipWith (fun x y => w32 (x + y)) hs st

/-- SHA-256 of a byte sequence: the eight 32-bit hash words. -/
def sha256Words (msg : List Nat) : List Nat :=
  (chunks64 (sha256Pad msg)).foldl sha256Block sha256H0

/-- Hex character of a value below 16 (lowercase, as Python's `hexdigest`). -/
def hexChar (n : Nat) : Char :=
  if n < 10 then Char.ofNat (48 + n) else Char.ofNat (87 + n)

/-- Eight hex characters of a 32-bit word, most significant first. -/
def wordHex (w : Nat) : List Char :=
  [hexChar ((w >>> 28) % 16), hexChar ((w >>> 24) % 16),
   hexChar ((w >>> 20) % 16), hexChar ((w >>> 16) % 16),
   hexChar ((w >>> 12) % 16), hexChar ((w >>> 8) % 16),
   hexChar ((w >>> 4) % 16), hexChar (w % 16)]

/-- The 64-character lowercase hex digest, `hashlib.sha256(...).hexdigest()`. -/
def sha256Hexdigest (s : String) : String :=
  String.mk ((sha256Words (strBytes s)).map wordHex).flatten

/-- Value of one hex digit, as Python's `int(_, 16)` reads it. -/
def hexVal (c : Char) : Nat :=
  if c.toNat ≥ 97 then c.toNat - 87
  else if c.toNat ≥ 65 then c.toNat - 55
  else c.toNat - 48

/-- Value of a hex string, `int(h, 16)`. -/
def hexToNat (l : List Char) : Nat :=
  l.foldl (fun a c => 16 * a + hexVal c) 0

/-- `port_for_dir` from `demo.py`, as a function of the directory path
string `str(SHELLEY_DIR)`:
`3000 + (int(hashlib.sha256(dir.encode()).hexdigest()[:8], 16) % 1000)`. -/
def port_for_dir (dir : String) : Nat :=
  3000 + hexToNat ((sha256Hexdigest dir).data.take 8) % 1000

/-- `session_name` from `demo.py`: the f-string `shelley-demo-{port}`. -/
def session_name (port : Nat) : String :=
  "shelley-demo-" ++ toString port

/-! ## The health prober

`health_check(port, timeout)` polls `urlopen(f"http://localhost:{port}/", timeout=1)`
until a response arrives or `time.monotonic()` passes `deadline = start + timeout`.
Time is in integer milliseconds; the `time.sleep(0.15)` after a swallowed
`URLError`/`OSError` is 150 ms.  A `ProbeEnv` says, for the `i`-th `urlopen`
attempt, whether it receives a response and how much wall time it consumes. -/

/-- Oracle for the HTTP probe attempts inside `health_check`. -/
structure ProbeEnv where
  succeeds : Nat → Bool
  dur : Nat → Nat

/-- The polling loop of `health_check`: at monotonic time `t` (ms), with
deadline `d`, about to make attempt `i`.  Returns the boolean result and the
number of `urlopen` attempts issued. -/
def health_check_run (env : ProbeEnv) (d t : Int) (i : Nat) : Bool × Nat :=
  if t < d then
    if env.succeeds i then (true, 1)
    else
      let r := health_check_run env d (t + env.dur i + 150) (i + 1)
      (r.1, r.2 + 1)
  else (false, 0)
termination_by (d - t).toNat
decreasing_by omega

/-- `health_check` from `demo.py` (timeout in ms; the Python default 5.0 s
is 5000). -/
def health_check (env : ProbeEnv) (timeout : Int) : Bool :=
  (health_check_run env timeout 0 0).1

/-- Number of `urlopen` attempts a `health_check` call issues. -/
def health_check_attempts (env : ProbeEnv) (timeout : Int) : Nat :=
  (health_check_run env timeout 0 0).2

/-- The monotonic time at which attempt `i` starts, assuming attempts
`0..i-1` all failed: each failed attempt consumes its own duration plus the
150 ms sleep. -/
def attemptTime (env : ProbeEnv) : Nat → Int
  | 0 => 0
  | i + 1 => attemptTime env i + env.dur i + 150

/-! ## Processes, events and outcomes

`subprocess.run` is modelled by the exit code the invoked program would
return; with `check=True` a non-zero exit raises `CalledProcessError`
(`Except.error`), without it the call never raises. -/

/-- The exception message for a `check=True` failure. -/
def calledProcessError : String := "CalledProcessError"

/-- `subprocess.run` on a process exiting with `returncode`: raises on
non-zero exit iff `check` is set. -/
def subprocess_run (returncode : Nat) (check : Bool) : Except String Nat :=
  if check = true ∧ returncode ≠ 0 then Except.error calledProcessError
  else Except.ok returncode

/-- Observable events of one invocation of the script. -/
inductive Event where
  | print (s : String)
  | printErr (s : String)
  | build
  | hasSession (name : String)
  | kill (name : String)
  | newSession (name : String) (cmd : String)
  | health (port : Nat)
  | sleep (ms : Nat)
  deriving DecidableEq, Repr

/-- How an invocation of the script ends: normal return (process exit 0),
`sys.exit code`, an uncaught exception, or `os.execvp` replacing the
process image. -/
inductive Outcome where
  | ok
  | exited (code : Nat)
  | raised (msg : String)
  | execed (argv : List String)
  deriving DecidableEq, Repr

/-- Environment oracle for one invocation: exit codes of the external
processes and the probe behaviour.  `hasExit name` is the exit code of
`tmux has-session -t name`, `killExit` of `tmux kill-session`,
`buildExit` of `make build`, `newSessionExit` of `tmux new-session`. -/
structure Env where
  buildExit : Nat
  hasExit : String → Nat
  killExit : String → Nat
  newSessionExit : Nat
  probe : ProbeEnv
  home : String

/-- `tmux_has_session` from `demo.py`: `subprocess.run(..., capture_output=True).returncode == 0`
(no `check`, so it never raises). -/
def tmux_has_session (env : Env) (name : String) : List Event × Bool :=
  ([Event.hasSession name],
   match subprocess_run (env.hasExit name) false with
   | Except.ok rc => rc == 0
   | Except.error _ => false)

/-- `tmux_kill_session` from `demo.py`: fire-and-forget
`subprocess.run(..., capture_output=True)` with no `check`; the exit code is
discarded and the call always returns normally. -/
def tmux_kill_session (env : Env) (name : String) : List Event × Outcome :=
  let r := subprocess_run (env.killExit name) false
  ([Event.kill name], Outcome.ok)

/-- The `CONFIG` constant of `demo.py`. -/
def shelleyCONFIG : String := "/exe.dev/shelley.json"

/-- The `HOSTNAME` constant of `demo.py`. -/
def shelleyHOSTNAME : String := "phil-dev.exe.xyz"

/-- The `DB` path of `demo.py`, `Path.home() / ".config/shelley/shelley.db"`. -/
def shelleyDB (env : Env) : String := env.home ++ "/.config/shelley/shelley.db"

/-- The f-string `Building shelley in {SHELLEY_DIR} ...`. -/
def msgBuilding (dir : String) : String := "Building shelley in " ++ dir ++ " ..."

/-- Literal printed after a successful build. -/
def msgBuildComplete : String := "Build complete."

/-- The f-string announcing the kill of an existing session. -/
def msgKilling (sess : String) : String :=
  "Killing existing tmux session \x27" ++ sess ++ "\x27"

/-- The f-string announcing the server start. -/
def msgStarting (port : Nat) (sess : String) : String :=
  "Starting demo server on port " ++ toString port ++
  " (tmux session \x27" ++ sess ++ "\x27) ..."

/-- The f-string printed when the health probe succeeds. -/
def msgRunning (port : Nat) : String :=
  "Demo server running on port " ++ toString port

/-- The warning (with attach hint) printed when the health probe fails. -/
def msgWarn (port : Nat) (sess : String) : String :=
  "Warning: port " ++ toString port ++
  " not responding yet. Check: tmux attach -t " ++ sess

/-- The f-string printing the URL. -/
def msgUrl (port : Nat) : String :=
  "URL: https://" ++ shelleyHOSTNAME ++ ":" ++ toString port ++ "/"

/-- The f-string printed by `stop` when the session was killed. -/
def msgStopped (sess : String) : String :=
  "Stopped (killed tmux session \x27" ++ sess ++ "\x27)."

/-- The not-running f-string of `stop` and `logs`. -/
def msgNotRunning (sess : String) : String :=
  "Not running (no tmux session \x27" ++ sess ++ "\x27)."

/-- The f-string of `status` when the session runs. -/
def msgStatusRunning (port : Nat) (sess : String) : String :=
  "Running (tmux session \x27" ++ sess ++ "\x27) on port " ++ toString port

/-- The attach hint of `status`. -/
def msgLogsHint (sess : String) : String := "Logs: tmux attach -t " ++ sess

/-- The f-string of `status` when the session does not run. -/
def msgStatusNot (port : Nat) : String :=
  "Not running (port " ++ toString port ++ ")"

/-- The usage line of `main`, `'/'.join` over the dict keys in order. -/
def msgUsage (prog : String) : String :=
  "Usage: " ++ prog ++ " [start/stop/status/port/logs]"

/-- The server command line built in `cmd_start`. -/
def serverCmd (env : Env) (dir : String) (port : Nat) : String :=
  dir ++ "/bin/shelley" ++ " --config " ++ shelleyCONFIG ++
  " --db " ++ shelleyDB env ++ " serve --port " ++ toString port

/-- `cmd_start` from `demo.py`: build (fatal on failure), kill any existing
session, start a detached session (fatal on failure), health-check, report. -/
def cmd_start (env : Env) (dir : String) (port : Nat) : List Event × Outcome :=
  let sess := session_name port
  let e0 := [Event.print (msgBuilding dir), Event.build]
  match subprocess_run env.buildExit true with
  | Except.error m => (e0, Outcome.raised m)
  | Except.ok _ =>
    let e1 := e0 ++ [Event.print msgBuildComplete]
    let hs := tmux_has_session env sess
    let e2 := e1 ++ hs.1 ++
      (if hs.2 then
        [Event.print (msgKilling sess)] ++ (tmux_kill_session env sess).1 ++
        [Event.sleep 300]
      else [])
    let e3 := e2 ++ [Event.print (msgStarting port sess),
                     Event.newSession sess (serverCmd env dir port)]
    match subprocess_run env.newSessionExit true with
    | Except.error m => (e3, Outcome.raised m)
    | Except.ok _ =>
      let e4 := e3 ++ [Event.health port] ++
        (if health_check env.probe 5000 then [Event.print (msgRunning port)]
         else [Event.print (msgWarn port sess)]) ++
        [Event.print (msgUrl port)]
      (e4, Outcome.ok)

/-- `cmd_stop` from `demo.py`. -/
def cmd_stop (env : Env) (port : Nat) : List Event × Outcome :=
  let sess := session_name port
  let hs := tmux_has_session env sess
  if hs.2 then
    (hs.1 ++ (tmux_kill_session env sess).1 ++ [Event.print (msgStopped sess)],
     Outcome.ok)
  else
    (hs.1 ++ [Event.print (msgNotRunning sess)], Outcome.ok)

/-- `cmd_status` from `demo.py`. -/
def cmd_status (env : Env) (port : Nat) : List Event × Outcome :=
  let sess := session_name port
  let hs := tmux_has_session env sess
  if hs.2 then
    (hs.1 ++ [Event.print (msgStatusRunning port sess),
              Event.print (msgUrl port), Event.print (msgLogsHint sess)],
     Outcome.ok)
  else
    (hs.1 ++ [Event.print (msgStatusNot port)], Outcome.ok)

/-- `cmd_logs` from `demo.py`: `sys.exit(1)` when the session is absent,
otherwise `os.execvp("tmux", ["tmux", "attach", "-t", sess])`. -/
def cmd_logs (env : Env) (port : Nat) : List Event × Outcome :=
  let sess := session_name port
  let hs := tmux_has_session env sess
  if ¬ hs.2 then
    (hs.1 ++ [Event.print (msgNotRunning sess)], Outcome.exited 1)
  else
    (hs.1, Outcome.execed ["tmux", "attach", "-t", sess])

/-- `main` from `demo.py`: `argv` is the full `sys.argv`; the action is
`argv[1]` when present, else `"start"`; unknown actions print the usage
line to stderr and `sys.exit(1)`. -/
def main' (env : Env) (dir : String) (argv : List String) : List Event × Outcome :=
  let port := port_for_dir dir
  let action := (argv.getD 1 "start")
  let prog := (argv.getD 0 "")
  if action = "start" then cmd_start env dir port
  else if action = "stop" then cmd_stop env port
  else if action = "status" then cmd_status env port
  else if action = "port" then ([Event.print (toString port)], Outcome.ok)
  else if action = "logs" then cmd_logs env port
  else ([Event.printErr (msgUsage prog)], Outcome.exited 1)

/-- Session-table operations of the multiplexer (query, kill, create). -/
def isSessionOp : Event → Bool
  | Event.hasSession _ => true
  | Event.kill _ => true
  | Event.newSession _ _ => true
  | _ => false

/-- Session-creation events. -/
def isNewSession : Event → Bool
  | Event.newSession _ _ => true
  | _ => false

/-- Kill events. -/
def isKill : Event → Bool
  | Event.kill _ => true
  | _ => false

/-- The kill events occurring strictly after the first session creation in a
trace: empty iff no session created by the trace is later killed by it. -/
def killsAfterStart (tr : List Event) : List Event :=
  ((tr.dropWhile (fun e => ! isNewSession e)).drop 1).filter isKill

/-! ## Reference decimal rendering, used to reason about `Nat.repr`

`session_name` uses Python's decimal f-string rendering, embedded as
Lean's `toString`/`Nat.repr`.  To prove injectivity we relate
`Nat.toDigitsCore` to a fuel-free recursion and give it a left inverse. -/

/-- Decimal digit characters of `n`, most significant first. -/
def digitsRec (n : Nat) : List Char :=
  if h : n < 10 then [Nat.digitChar n]
  else digitsRec (n / 10) ++ [Nat.digitChar (n % 10)]
termination_by n
decreasing_by
  exact Nat.div_lt_self (by omega) (by omega)

/-- Decimal parser, a left inverse of `digitsRec`. -/
def decParse (l : List Char) : Nat :=
  l.foldl (fun a c => 10 * a + (c.toNat - 48)) 0

/-! ## Concrete environments used by the witnesses -/

/-- A probe whose attempts never receive a response, each consuming 6 s. -/
def probeNever : ProbeEnv := ⟨fun _ => false, fun _ => 6000⟩

/-- Every external process succeeds, no tmux session exists, and the
server never answers the probe. -/
def envNoSession : Env := ⟨0, fun _ => 1, fun _ => 0, 0, probeNever, "/root"⟩

/-- Every external process succeeds and the queried tmux session exists. -/
def envWithSession : Env := ⟨0, fun _ => 0, fun _ => 0, 0, probeNever, "/root"⟩

/-- The build exits with code 2; everything else would succeed. -/
def envBuildFail : Env := ⟨2, fun _ => 0, fun _ => 0, 0, probeNever, "/root"⟩

/-! ## Theorems -/

theorem digitChar_toNat : ∀ m, m < 10 → (Nat.digitChar m).toNat = 48 + m := by
  decide

theorem toDigitsCore_eq_digitsRec (fuel : Nat) :
    ∀ n ds, n < fuel → Nat.toDigitsCore 10 fuel n ds = digitsRec n ++ ds := by
  induction fuel with
  | zero => intro n ds h; omega
  | succ f ih =>
    intro n ds h
    by_cases h10 : n < 10
    · have hdiv : n / 10 = 0 := Nat.div_eq_of_lt h10
      simp [Nat.toDigitsCore, hdiv, digitsRec, h10, Nat.mod_eq_of_lt h10]
    · have hdiv : n / 10 ≠ 0 := by
        intro hc
        exact h10 (by omega : n < 10)
      have hlt : n / 10 < f := by
        have := Nat.div_lt_self (by omega : 0 < n) (by omega : 1 < 10)
        omega
      simp only [Nat.toDigitsCore, hdiv, if_neg]
      rw [ih (n / 10) (Nat.digitChar (n % 10) :: ds) hlt]
      have hsplit : digitsRec n = digitsRec (n / 10) ++ [Nat.digitChar (n % 10)] := by
        rw [digitsRec]
        simp [h10]
      rw [hsplit]
      simp

theorem decParse_digitsRec (n : Nat) : decParse (digitsRec n) = n := by
  induction n using Nat.strong_induction_on with
  | _ n ih =>
    by_cases h10 : n < 10
    · rw [digitsRec]
      simp only [h10, dif_pos]
      simp [decParse, digitChar_toNat n h10]
    · rw [digitsRec]
      simp only [h10, dif_neg, not_false_iff]
      have hlt : n / 10 < n := Nat.div_lt_self (by omega) (by omega)
      have hmod : n % 10 < 10 := Nat.mod_lt _ (by omega)
      unfold decParse
      rw [List.foldl_append]
      have hbase := ih (n / 10) hlt
      unfold decParse at hbase
      rw [hbase]
      simp [digitChar_toNat (n % 10) hmod]
      omega

theorem nat_repr_injective : Function.Injective Nat.repr := by
  intro n m h
  have hn : Nat.repr n = (digitsRec n).asString := by
    unfold Nat.repr Nat.toDigits
    rw [toDigitsCore_eq_digitsRec (n + 1) n [] (by omega)]
    simp
  have hm : Nat.repr m = (digitsRec m).asString := by
    unfold Nat.repr Nat.toDigits
    rw [toDigitsCore_eq_digitsRec (m + 1) m [] (by omega)]
    simp
  rw [hn, hm] at h
  have hdata : digitsRec n = digitsRec m := by
    have := congrArg String.data h
    simpa [List.asString] using this
  have := congrArg decParse hdata
  rwa [decParse_digitsRec, decParse_digitsRec] at this

theorem toString_nat_injective : Function.Injective (fun n : Nat => toString n) := by
  intro n m h
  exact nat_repr_injective h

theorem session_name_injective : Function.Injective session_name := by
  intro p q h
  unfold session_name at h
  have hdata := congrArg String.data h
  simp only [String.data_append] at hdata
  have : (toString p).data = (toString q).data :=
    List.append_cancel_left hdata
  exact toString_nat_injective (congrArg String.mk this)

/-- C9: `session_name p` is the string `"shelley-demo-"` followed by the
decimal rendering of `p`, and `session_name` is injective over the port
range `[3000, 3999]`. -/
theorem session_name_spec (port : Nat) :
    session_name port = "shelley-demo-" ++ toString port ∧
    ∀ q, 3000 ≤ port → port ≤ 3999 → 3000 ≤ q → q ≤ 3999 →
      session_name port = session_name q → port = q := by
  refine ⟨rfl, fun q _ _ _ _ h => session_name_injective h⟩

/-- Witness for C9 at the concrete port 3000. -/
theorem session_name_spec_witness :
    session_name 3000 = "shelley-demo-3000" ∧ (3000 : Nat) = 3000 := by
  constructor
  · have h := (session_name_spec 3000).1
    rw [h]
    decide
  · exact (session_name_spec 3000).2 3000 (by decide) (by decide) (by decide)
      (by decide) rfl

/-- C1: the port resolver is `3000 + (int(sha256_hexdigest(path)[:8], 16) % 1000)`;
being a pure function of the path it returns the same port on every call,
and the result always lies in `[3000, 3999]`. -/
theorem port_for_dir_spec (dir : String) :
    port_for_dir dir =
      3000 + hexToNat ((sha256Hexdigest dir).data.take 8) % 1000 ∧
    3000 ≤ port_for_dir dir ∧ port_for_dir dir < 4000 := by
  refine ⟨rfl, ?_, ?_⟩
  · exact Nat.le_add_right 3000 _
  · have h : hexToNat ((sha256Hexdigest dir).data.take 8) % 1000 < 1000 :=
      Nat.mod_lt _ (by omega)
    unfold port_for_dir
    omega

theorem attemptTime_nonneg (env : ProbeEnv) (i : Nat) : 0 ≤ attemptTime env i := by
  induction i with
  | zero => simp [attemptTime]
  | succ n ih => simp only [attemptTime]; positivity

/-- C10: a non-positive timeout makes `health_check` return false with no
`urlopen` attempt issued; a strictly positive timeout guarantees at least
one attempt. -/
theorem health_check_timeout_cases (env : ProbeEnv) (timeout : Int) :
    (timeout ≤ 0 → health_check env timeout = false ∧
      health_check_attempts env timeout = 0) ∧
    (0 < timeout → 1 ≤ health_check_attempts env timeout) := by
  constructor
  · intro h
    unfold health_check health_check_attempts
    rw [health_check_run, if_neg (by omega)]
    exact ⟨rfl, rfl⟩
  · intro h
    unfold health_check_attempts
    rw [health_check_run, if_pos (show (0 : Int) < timeout by omega)]
    by_cases hs : env.succeeds 0 = true
    · rw [if_pos hs]
    · rw [if_neg hs]
      show 1 ≤ (health_check_run env timeout (0 + env.dur 0 + 150) 1).2 + 1
      omega

/-- Witness for C10: the never-answering probe with timeouts `-1` and `1`. -/
theorem health_check_timeout_cases_witness :
    (health_check probeNever (-1) = false ∧
      health_check_attempts probeNever (-1) = 0) ∧
    1 ≤ health_check_attempts probeNever 1 := by
  exact ⟨(health_check_timeout_cases probeNever (-1)).1 (by decide),
         (health_check_timeout_cases probeNever 1).2 (by decide)⟩

/-- C8: the session-existence query is true iff the `tmux has-session`
invocation exits with code 0 (any non-zero exit reads as "does not
exist"), and the kill operation returns normally whatever the exit code
of `tmux kill-session` was: neither is run with `check=True`, so neither
can raise on a non-zero exit. -/
theorem tmux_session_ops (env : Env) (name : String) :
    ((tmux_has_session env name).2 = true ↔ env.hasExit name = 0) ∧
    (tmux_kill_session env name).2 = Outcome.ok := by
  constructor
  · unfold tmux_has_session subprocess_run
    simp
  · rfl

/-- C7: the dispatcher takes the action from `argv[1]`, defaulting to
`start` when absent; each of the five recognized actions runs the
corresponding command on the resolved port; anything else prints the
usage line to stderr and exits with status 1 without running any action. -/
theorem main_dispatch (env : Env) (dir p : String) :
    main' env dir [p] = main' env dir [p, "start"] ∧
    main' env dir [p, "start"] = cmd_start env dir (port_for_dir dir) ∧
    main' env dir [p, "stop"] = cmd_stop env (port_for_dir dir) ∧
    main' env dir [p, "status"] = cmd_status env (port_for_dir dir) ∧
    main' env dir [p, "port"] =
      ([Event.print (toString (port_for_dir dir))], Outcome.ok) ∧
    main' env dir [p, "logs"] = cmd_logs env (port_for_dir dir) ∧
    ∀ a, a ∉ (["start", "stop", "status", "port", "logs"] : List String) →
      main' env dir [p, a] = ([Event.printErr (msgUsage p)], Outcome.exited 1) := by
  refine ⟨rfl, rfl, rfl, rfl, rfl, rfl, ?_⟩
  intro a ha
  simp only [List.mem_cons, List.not_mem_nil, or_false, not_or] at ha
  obtain ⟨h1, h2, h3, h4, h5⟩ := ha
  simp [main', h1, h2, h3, h4, h5]

/-- C5: `stop` on a non-existent session emits exactly the existence query
and the not-running message, invokes no kill, raises nothing, and the
process completes normally (exit status 0). -/
theorem cmd_stop_not_running (env : Env) (dir p : String)
    (h : env.hasExit (session_name (port_for_dir dir)) ≠ 0) :
    main' env dir [p, "stop"] =
      ([Event.hasSession (session_name (port_for_dir dir)),
        Event.print (msgNotRunning (session_name (port_for_dir dir)))],
       Outcome.ok) ∧
    List.filter isKill (main' env dir [p, "stop"]).1 = [] := by
  have hmain : main' env dir [p, "stop"] = cmd_stop env (port_for_dir dir) := rfl
  rw [hmain]
  unfold cmd_stop tmux_has_session subprocess_run
  simp [h, isKill]

/-- C6: `logs` on a non-existent session prints the not-running message and
exits with status 1, its trace holding no attach (the outcome is `exited`,
not `execed`); when the session exists the process image is replaced by
`tmux attach -t <sess>`. -/
theorem cmd_logs_spec (env : Env) (dir p : String) :
    (env.hasExit (session_name (port_for_dir dir)) ≠ 0 →
      main' env dir [p, "logs"] =
        ([Event.hasSession (session_name (port_for_dir dir)),
          Event.print (msgNotRunning (session_name (port_for_dir dir)))],
         Outcome.exited 1)) ∧
    (env.hasExit (session_name (port_for_dir dir)) = 0 →
      main' env dir [p, "logs"] =
        ([Event.hasSession (session_name (port_for_dir dir))],
         Outcome.execed
           ["tmux", "attach", "-t", session_name (port_for_dir dir)])) := by
  have hmain : main' env dir [p, "logs"] = cmd_logs env (port_for_dir dir) := rfl
  constructor
  · intro h
    rw [hmain]
    unfold cmd_logs tmux_has_session subprocess_run
    simp [h]
  · intro h
    rw [hmain]
    unfold cmd_logs tmux_has_session subprocess_run
    simp [h]

/-- C4: when the build exits non-zero, `start` stops at the uncaught
`CalledProcessError`: the whole trace is the build announcement and the
build invocation, so no multiplexer operation (query, kill or create) was
attempted. -/
theorem cmd_start_build_fail (env : Env) (dir p : String)
    (hb : env.buildExit ≠ 0) :
    main' env dir [p, "start"] =
      ([Event.print (msgBuilding dir), Event.build],
       Outcome.raised calledProcessError) ∧
    List.filter isSessionOp (main' env dir [p, "start"]).1 = [] := by
  have hrun : subprocess_run env.buildExit true = Except.error calledProcessError := by
    unfold subprocess_run
    rw [if_pos ⟨rfl, hb⟩]
  have hmain : main' env dir [p, "start"] = cmd_start env dir (port_for_dir dir) := rfl
  rw [hmain]
  unfold cmd_start
  rw [hrun]
  exact ⟨rfl, rfl⟩

/-- C3: when `start` reaches the health probe (build and session creation
succeeded) and the probe returns false, the run still completes normally
(exit status 0), the warning with the attach hint is printed, and no kill
follows the session creation in the trace. -/
theorem cmd_start_probe_fail (env : Env) (dir p : String)
    (hb : env.buildExit = 0) (hn : env.newSessionExit = 0)
    (hp : health_check env.probe 5000 = false) :
    (main' env dir [p, "start"]).2 = Outcome.ok ∧
    Event.print (msgWarn (port_for_dir dir) (session_name (port_for_dir dir)))
      ∈ (main' env dir [p, "start"]).1 ∧
    killsAfterStart (main' env dir [p, "start"]).1 = [] := by
  have hrunb : subprocess_run env.buildExit true = Except.ok 0 := by
    unfold subprocess_run
    simp [hb]
  have hrunn : subprocess_run env.newSessionExit true = Except.ok 0 := by
    unfold subprocess_run
    simp [hn]
  have hmain : main' env dir [p, "start"] = cmd_start env dir (port_for_dir dir) := rfl
  rw [hmain]
  unfold cmd_start
  rw [hrunb, hrunn, hp]
  by_cases hks : env.hasExit (session_name (port_for_dir dir)) = 0
  · simp [tmux_has_session, subprocess_run, tmux_kill_session, hks,
      killsAfterStart, isNewSession, isKill]
  · simp [tmux_has_session, subprocess_run, hks,
      killsAfterStart, isNewSession, isKill]

/-- Witness for C3: concrete environment whose probe attempts each take
6 s and never answer, so the 5 s health check fails after two loop
iterations. -/
theorem cmd_start_probe_fail_witness :
    (main' envNoSession "/srv/shelley" ["demo.py", "start"]).2 = Outcome.ok ∧
    Event.print (msgWarn (port_for_dir "/srv/shelley")
        (session_name (port_for_dir "/srv/shelley")))
      ∈ (main' envNoSession "/srv/shelley" ["demo.py", "start"]).1 ∧
    killsAfterStart
      (main' envNoSession "/srv/shelley" ["demo.py", "start"]).1 = [] := by
  refine cmd_start_probe_fail envNoSession "/srv/shelley" "demo.py" rfl rfl ?_
  show (health_check_run probeNever 5000 0 0).1 = false
  rw [health_check_run]
  norm_num [probeNever]
  rw [health_check_run]
  norm_num

/-- Witness for C4: the environment whose build exits with code 2. -/
theorem cmd_start_build_fail_witness :
    main' envBuildFail "/srv/shelley" ["demo.py", "start"] =
      ([Event.print (msgBuilding "/srv/shelley"), Event.build],
       Outcome.raised calledProcessError) ∧
    List.filter isSessionOp
      (main' envBuildFail "/srv/shelley" ["demo.py", "start"]).1 = [] :=
  cmd_start_build_fail envBuildFail "/srv/shelley" "demo.py" (by decide)

/-- Witness for C5: the environment with no tmux session. -/
theorem cmd_stop_not_running_witness :
    main' envNoSession "/srv/shelley" ["demo.py", "stop"] =
      ([Event.hasSession (session_name (port_for_dir "/srv/shelley")),
        Event.print (msgNotRunning (session_name (port_for_dir "/srv/shelley")))],
       Outcome.ok) ∧
    List.filter isKill
      (main' envNoSession "/srv/shelley" ["demo.py", "stop"]).1 = [] :=
  cmd_stop_not_running envNoSession "/srv/shelley" "demo.py" (by decide)

/-- Witness for C6: both branches, with and without an existing session. -/
theorem cmd_logs_spec_witness :
    main' envNoSession "/srv/shelley" ["demo.py", "logs"] =
      ([Event.hasSession (session_name (port_for_dir "/srv/shelley")),
        Event.print (msgNotRunning (session_name (port_for_dir "/srv/shelley")))],
       Outcome.exited 1) ∧
    main' envWithSession "/srv/shelley" ["demo.py", "logs"] =
      ([Event.hasSession (session_name (port_for_dir "/srv/shelley"))],
       Outcome.execed
         ["tmux", "attach", "-t", session_name (port_for_dir "/srv/shelley")]) :=
  ⟨(cmd_logs_spec envNoSession "/srv/shelley" "demo.py").1 (by decide),
   (cmd_logs_spec envWithSession "/srv/shelley" "demo.py").2 (by decide)⟩

/-- Witness for C7: the default action and a concrete unknown action. -/
theorem main_dispatch_witness :
    main' envNoSession "/srv/shelley" ["demo.py"] =
      main' envNoSession "/srv/shelley" ["demo.py", "start"] ∧
    main' envNoSession "/srv/shelley" ["demo.py", "frobnicate"] =
      ([Event.printErr (msgUsage "demo.py")], Outcome.exited 1) :=
  ⟨(main_dispatch envNoSession "/srv/shelley" "demo.py").1,
   (main_dispatch envNoSession "/srv/shelley" "demo.py").2.2.2.2.2.2
     "frobnicate" (by decide)⟩
